import Mathlib

/-!
Shallow embedding of the two-phase-commit implementation in
`coordinator_server.py`, `participant_server.py`, `base_server.py`,
`rpc_call.py`, `log_handler.py` and `account_handler.py`.

Balances are Python floats in the source; every operation on them is exact
addition/subtraction, so they are modelled as `Int`.  Wall-clock timestamps
(`time.time()`) are threaded explicitly as an `Int` parameter `now`.
Per-process state (the in-memory transaction tables, the ledger file
`account.json`, the append-only `server_log.json`) is carried in explicit
state records.
-/

namespace TwoPC

/-- One record written by `log_handler.log_event(state, account_id,
account_balance, error)`.  The wall-clock `timestamp` field does not affect
any control flow and is omitted. -/
structure LogRecord where
  state : String
  account_id : String
  account_balance : Int
  error : Option String
deriving DecidableEq

/-- A participant-side pending vote: the value stored in
`self.transactions[transaction_id]` by `ParticipantServer.handle_prepare`
(`participant_server.py` lines 72-75). -/
structure PendingVote where
  new_balance : Int
  timestamp : Int
deriving DecidableEq

/-- The dict returned by `ParticipantServer.handle_prepare`:
`{"result": {"canPrepare": b}, "error": e}`. -/
structure PrepareReply where
  canPrepare : Bool
  error : Option String
deriving DecidableEq

/-- The dict returned by `ParticipantServer.handle_commit`:
`{"result": {"canCommit": b}}`, plus the error field of the no-branch. -/
structure CommitReply where
  canCommit : Bool
  error : Option String
deriving DecidableEq

/-- State of one `ParticipantServer` process: its account id, the balance
stored for that id in its `account.json` ledger, the in-memory pending-vote
table `self.transactions`, and its append-only `server_log.json`. -/
structure ParticipantServer where
  account_id : String
  balance : Int
  transactions : List (Nat × PendingVote)
  log : List LogRecord
deriving DecidableEq

/-- Python dict assignment `d[k] = v` on an insertion-ordered dict: an
existing binding is overwritten in place, a new key is appended at the
end. -/
def dictSet {α β : Type} [BEq α] (l : List (α × β)) (k : α) (v : β) :
    List (α × β) :=
  if l.any (fun kv => kv.1 == k) then
    l.map (fun kv => if kv.1 == k then (k, v) else kv)
  else
    l ++ [(k, v)]

/-- Python `del d[k]` (all uses in the source are guarded by `k in d`, so
deleting an absent key never raises here). -/
def dictDel {α β : Type} [BEq α] (l : List (α × β)) (k : α) : List (α × β) :=
  l.filter (fun kv => !(kv.1 == k))

/-- Python truthiness of the `transaction_id` parameter of
`ParticipantServer.handle_abort`: `if transaction_id:` is false both for
`None` and for the integer `0`. -/
def pyTruthy : Option Nat → Bool
  | none => false
  | some n => n != 0

/-- `ParticipantServer.handle_prepare(new_balance, transaction_id)`
(`participant_server.py` lines 65-77): a negative proposed balance is
refused with error "Insufficient funds" and no state change at all;
otherwise a `prepare` log record is appended, the pending vote is stored
under `transaction_id` with a fresh timestamp, and the vote is yes. -/
def handle_prepare (p : ParticipantServer) (new_balance : Int)
    (transaction_id : Nat) (now : Int) : ParticipantServer × PrepareReply :=
  if new_balance < 0 then
    (p, { canPrepare := false, error := some "Insufficient funds" })
  else
    ({ p with
        log := p.log ++
          [{ state := "prepare", account_id := p.account_id,
             account_balance := new_balance, error := none }],
        transactions := dictSet p.transactions transaction_id
          { new_balance := new_balance, timestamp := now } },
     { canPrepare := true, error := none })

/-- `ParticipantServer.set_balance(new_balance)` (lines 57-63): appends a
`commit` log record and updates the ledger.  Its confirmation-string return
value is ignored by its only internal caller, `handle_commit`. -/
def set_balance (p : ParticipantServer) (new_balance : Int) :
    ParticipantServer :=
  { p with
      log := p.log ++
        [{ state := "commit", account_id := p.account_id,
           account_balance := new_balance, error := none }],
      balance := new_balance }

/-- `ParticipantServer.handle_commit(transaction_id)` (lines 79-90): an
unknown id is refused with no state change; a pending id has its stored
balance logged (`log_event("commit", ...)`), applied via `set_balance`
(which logs `commit` a second time and writes the ledger), and its pending
entry deleted. -/
def handle_commit (p : ParticipantServer) (transaction_id : Nat) :
    ParticipantServer × CommitReply :=
  match p.transactions.lookup transaction_id with
  | some v =>
      let p₁ : ParticipantServer :=
        { p with
            log := p.log ++
              [{ state := "commit", account_id := p.account_id,
                 account_balance := v.new_balance, error := none }] }
      let p₂ := set_balance p₁ v.new_balance
      ({ p₂ with transactions := dictDel p₂.transactions transaction_id },
       { canCommit := true, error := none })
  | none => (p, { canCommit := false, error := some "Transaction not prepared" })

/-- `ParticipantServer.handle_abort(transaction_id=None)` (lines 92-103):
always appends an `abort` log record at the current (unchanged) balance;
then `if transaction_id:` deletes just that pending entry, while a falsy id
(`None` or `0`) clears the whole pending table. -/
def handle_abort (p : ParticipantServer) (transaction_id : Option Nat) :
    ParticipantServer :=
  let q : ParticipantServer :=
    { p with
        log := p.log ++
          [{ state := "abort", account_id := p.account_id,
             account_balance := p.balance,
             error := some "Transaction aborted" }] }
  if pyTruthy transaction_id then
    { q with transactions := dictDel q.transactions (transaction_id.getD 0) }
  else
    { q with transactions := [] }

/-- The intended log filter of `ParticipantServer.recover`
(`participant_server.py` lines 114-115): the `commit`-phase records for
this participant's account, in log order. -/
def relevantLogs (aid : String) (L : List LogRecord) : List LogRecord :=
  L.filter (fun l => l.account_id == aid && l.state == "commit")

/-- One iteration of recover's replay loop (lines 117-127): apply the
recorded committed balance to the ledger and append a `recovered` log
record. -/
def applyCommit (q : ParticipantServer) (l : LogRecord) : ParticipantServer :=
  { q with
      balance := l.account_balance,
      log := q.log ++
        [{ state := "recovered", account_id := q.account_id,
           account_balance := l.account_balance, error := none }] }

/-- The replay that `recover` is written to perform on the fetched list of
log records: filter to this account's `commit` records and fold the loop
body over them in log order.  In the shipped code this point is never
reached with an actual record list — see `recover_relevant_logs`. -/
def replay_commit_logs (p : ParticipantServer) (L : List LogRecord) :
    ParticipantServer :=
  (relevantLogs p.account_id L).foldl applyCommit p

/-- The keys of the transport envelope `{"result": ..., "error": null}`
that `base_server.py`'s `/rpc` route wraps around every handler result and
that `rpc_call` returns verbatim (`rpc_call.py` line 16).  Iterating a
Python dict yields its keys in insertion order. -/
def envelope_keys : List String := ["result", "error"]

/-- The list comprehension of `ParticipantServer.recover` (lines 114-115):
`logs = rpc_call(coordinator, "get_logs", params={})` binds the transport
envelope itself — the code never projects out `logs["result"]` — so
`for log in logs` iterates the envelope's keys.  The first item is the
string `"result"`, and evaluating `log["account_id"]` on a string raises
`TypeError: string indices must be integers`, aborting the comprehension
before any filtering happens. -/
def recover_relevant_logs (_aid : String) (_fetched : List LogRecord) :
    Except String (List LogRecord) :=
  match envelope_keys with
  | [] => .ok []
  | _k :: _ => .error "string indices must be integers"

/-- `ParticipantServer.recover()` (lines 105-137), given the list of log
records the coordinator's `get_logs` would serve.  The comprehension raises
(see `recover_relevant_logs`); the surrounding `try/except` catches the
exception and only prints, so the participant state is returned unchanged.
The `.ok` branch is the replay loop the code contains for the
never-materialising record list. -/
def recover (p : ParticipantServer) (coordinatorLog : List LogRecord) :
    ParticipantServer :=
  match recover_relevant_logs p.account_id coordinatorLog with
  | .ok relevant => relevant.foldl applyCommit p
  | .error _ => p

/-- The two balance maps `{"A": ..., "B": ...}` that
`CoordinatorServer.transfer` and `add_bonus` build and pass to
`propose_prepare` (`coordinator_server.py` lines 76-77). -/
structure Balances where
  A : Int
  B : Int
deriving DecidableEq

/-- The value the coordinator stores in
`self.transactions[tid]["responses"][account_id]` during
`propose_prepare` (lines 148-165).

* `wrapped r`: the successful-RPC case.  `rpc_call` returns the `/rpc`
  route's transport envelope `{"result": result, "error": null}` where
  `result` is the dict `handle_prepare` returned — itself of the shape
  `{"result": {"canPrepare": b}, "error": e}` — so the stored value is the
  doubly nested envelope.
* `syntheticFalse err`: the `except Exception` branch stores
  `{"result": {"canPrepare": False}, "error": str(e)}` (reached when the
  participant is unreachable: `rpc_call` turns a `RequestException` into a
  raised `RuntimeError`).
* `pyNone`: the timeout case.  `rpc_call` catches
  `requests.exceptions.Timeout` itself, prints, and falls through
  returning `None` (`rpc_call.py` lines 17-18), so the coordinator's
  `except TimeoutError` branch is unreachable and `None` is stored. -/
inductive StoredResponse where
  | wrapped (reply : PrepareReply)
  | syntheticFalse (err : String)
  | pyNone
deriving DecidableEq

/-- A coordinator-side transaction record (lines 148-155).  The
`participants` entry always holds the descriptors `[server_A, server_B]`
built by `transfer`/`add_bonus`, so the later per-participant loops are
unrolled in the fixed order A then B and the field is left implicit. -/
structure Transaction where
  responses : List (String × StoredResponse)
  old_balances : Balances
  new_balances : Balances
  timestamp : Int
deriving DecidableEq

/-- State of the `CoordinatorServer` process: `self.transaction_counter`,
`self.transactions`, and its own `server_log.json` (`clog`). -/
structure Coordinator where
  transaction_counter : Nat
  transactions : List (Nat × Transaction)
  clog : List LogRecord
deriving DecidableEq

/-- The whole two-participant cluster the coordinator drives: its own state
plus the participant owning account A and the participant owning
account B. -/
structure SystemState where
  co : Coordinator
  pa : ParticipantServer
  pb : ParticipantServer
deriving DecidableEq

/-- The network's behaviour for one RPC: the request/response round-trip
succeeds, or `requests.post` times out, or it fails with a connection
error. -/
inductive NetOutcome where
  | ok
  | timeout
  | connFail
deriving DecidableEq

/-- One network outcome per RPC the coordinator issues during a single
`transfer` run: the two `get_balance` reads, the two `handle_prepare`
calls, the two `handle_commit` calls and the two `handle_abort` calls. -/
structure Net where
  getBalA : NetOutcome
  getBalB : NetOutcome
  prepA : NetOutcome
  prepB : NetOutcome
  commitA : NetOutcome
  commitB : NetOutcome
  abortA : NetOutcome
  abortB : NetOutcome
deriving DecidableEq

/-- The new balances `transfer` computes (lines 69-74): debit the `from`
account, credit the other, with the `if account_id_from == "A"` branch of
the source.  Returns `(new_balance_A, new_balance_B)`. -/
def transfer_new_balances (account_id_from : String)
    (balance_A balance_B amount : Int) : Int × Int :=
  if account_id_from == "A" then
    (balance_A - amount, balance_B + amount)
  else
    (balance_A + amount, balance_B - amount)

/-- Evaluation of the generator expression in
`process_prepare_responses` (lines 174-178):
`all(response["result"]["canPrepare"] for response in responses.values()
if "result" in response)` over the stored responses in insertion order,
with Python's short-circuiting `all`.

* a `syntheticFalse` entry has top-level key `"result"` mapping to
  `{"canPrepare": False}`, so it yields `False` and `all` stops;
* a `wrapped` entry also has top-level key `"result"`, but that maps to
  the handler's own `{"result": ..., "error": ...}` dict which has no
  `"canPrepare"` key, so the subscript raises `KeyError: 'canPrepare'`;
* a `pyNone` entry makes the filter `"result" in None` raise `TypeError`.

`.ok b` is a normally computed truth value, `.error e` an exception
propagating out of the generator. -/
def readPrepVotes : List StoredResponse → Except String Bool
  | [] => .ok true
  | .syntheticFalse _ :: _ => .ok false
  | .wrapped _ :: _ => .error "\x27canPrepare\x27"
  | .pyNone :: _ => .error "argument of type \x27NoneType\x27 is not iterable"

/-- The same vote scan as performed inside `transfer` (line 83):
`all(response["result"]["canPrepare"] for response in responses.values())`
— no `"result" in response` filter, so a stored `None` raises the
subscripting `TypeError` instead. -/
def readPrepVotesTransfer : List StoredResponse → Except String Bool
  | [] => .ok true
  | .syntheticFalse _ :: _ => .ok false
  | .wrapped _ :: _ => .error "\x27canPrepare\x27"
  | .pyNone :: _ => .error "\x27NoneType\x27 object is not subscriptable"

/-- One `handle_prepare` RPC from `propose_prepare`'s loop (lines 157-165),
returning the updated participant and the stored response. -/
def prepOne (outc : NetOutcome) (p : ParticipantServer) (nb : Int)
    (tid : Nat) (now : Int) : ParticipantServer × StoredResponse :=
  match outc with
  | .ok =>
      let r := handle_prepare p nb tid now
      (r.1, .wrapped r.2)
  | .timeout => (p, .pyNone)
  | .connFail => (p, .syntheticFalse "Failed RPC call")

/-- The in-place mutation
`self.transactions[tid]["responses"][account_id] = response`. -/
def setResponse (co : Coordinator) (tid : Nat) (aid : String)
    (r : StoredResponse) : Coordinator :=
  { co with
      transactions := co.transactions.map (fun kv =>
        if kv.1 == tid then
          (kv.1, { kv.2 with responses := dictSet kv.2.responses aid r })
        else kv) }

/-- One `handle_commit` RPC from `propose_commit`'s loop (lines 198-209),
returning the updated participant and the coordinator's parsed
acknowledgement `response["result"].get("canCommit", False)`.

On a delivered call the participant runs `handle_commit`, but the stored
envelope's `"result"` value is the handler's own `{"result": {"canCommit":
b}}` dict, which has no top-level `"canCommit"` key, so `.get` returns the
default `False`.  On a timeout `rpc_call` returns `None` and
`None["result"]` raises `TypeError`, caught by the loop's
`except Exception`; a connection failure raises `RuntimeError`, likewise
caught.  Every path therefore acknowledges `False`. -/
def commitAck (outc : NetOutcome) (p : ParticipantServer) (tid : Nat) :
    ParticipantServer × Bool :=
  match outc with
  | .ok => ((handle_commit p tid).1, false)
  | .timeout => (p, false)
  | .connFail => (p, false)

/-- One `handle_abort` RPC from `propose_abort`'s loop (lines 229-237):
delivered calls run the participant's `handle_abort(tid)`; timeouts are
swallowed inside `rpc_call` and connection failures are caught and
ignored. -/
def abortOne (outc : NetOutcome) (p : ParticipantServer) (tid : Nat) :
    ParticipantServer :=
  match outc with
  | .ok => handle_abort p (some tid)
  | .timeout => p
  | .connFail => p

/-- `CoordinatorServer.propose_abort(transaction_id)` (lines 220-241): for
each participant in order, append an `abort` log record at the
pre-transaction balance, then best-effort-send `handle_abort`; finally
delete the transaction record. -/
def propose_abort (s : SystemState) (net : Net) (tid : Nat) : SystemState :=
  match s.co.transactions.lookup tid with
  | none => s
  | some tx =>
      let co₁ : Coordinator :=
        { s.co with
            clog := s.co.clog ++
              [{ state := "abort", account_id := "A",
                 account_balance := tx.old_balances.A, error := none }] }
      let pa' := abortOne net.abortA s.pa tid
      let co₂ : Coordinator :=
        { co₁ with
            clog := co₁.clog ++
              [{ state := "abort", account_id := "B",
                 account_balance := tx.old_balances.B, error := none }] }
      let pb' := abortOne net.abortB s.pb tid
      { co := { co₂ with transactions := dictDel co₂.transactions tid },
        pa := pa', pb := pb' }

/-- `CoordinatorServer.propose_commit(transaction_id)` (lines 190-218): for
each participant in order, append a `commit` log record at the new
balance, send `handle_commit`, and parse the acknowledgement (see
`commitAck`); the first negative acknowledgement breaks the loop and
redirects the transaction to `propose_abort`; only full success deletes
the record directly. -/
def propose_commit (s : SystemState) (net : Net) (tid : Nat) : SystemState :=
  match s.co.transactions.lookup tid with
  | none => s
  | some tx =>
      let co₁ : Coordinator :=
        { s.co with
            clog := s.co.clog ++
              [{ state := "commit", account_id := "A",
                 account_balance := tx.new_balances.A, error := none }] }
      let ra := commitAck net.commitA s.pa tid
      let s₁ : SystemState := { co := co₁, pa := ra.1, pb := s.pb }
      if !ra.2 then propose_abort s₁ net tid
      else
        let co₂ : Coordinator :=
          { s₁.co with
              clog := s₁.co.clog ++
                [{ state := "commit", account_id := "B",
                   account_balance := tx.new_balances.B, error := none }] }
        let rb := commitAck net.commitB s₁.pb tid
        let s₂ : SystemState := { co := co₂, pa := s₁.pa, pb := rb.1 }
        if !rb.2 then propose_abort s₂ net tid
        else
          { s₂ with
              co := { s₂.co with
                        transactions := dictDel s₂.co.transactions tid } }

/-- `CoordinatorServer.process_prepare_responses(transaction_id)` (lines
167-188): compute `all_prepared` over the recorded responses (see
`readPrepVotes`); all-yes goes to `propose_commit`, any-no to
`propose_abort`, and an exception raised by the generator expression
propagates to the caller with the state unchanged. -/
def process_prepare_responses (s : SystemState) (net : Net) (tid : Nat) :
    SystemState × Except String Unit :=
  match s.co.transactions.lookup tid with
  | none => (s, .ok ())
  | some tx =>
      match readPrepVotes (tx.responses.map Prod.snd) with
      | .error e => (s, .error e)
      | .ok true => (propose_commit s net tid, .ok ())
      | .ok false => (propose_abort s net tid, .ok ())

/-- `CoordinatorServer.propose_prepare(participants, old_balances,
new_balances)` (lines 136-165): allocate the next transaction id, record
the fresh transaction, then for each participant in order append a
`prepare` log record *before* the RPC and store the response (see
`prepOne`); finally hand off to `process_prepare_responses`.  The `Except`
component is an exception propagating out of that hand-off. -/
def propose_prepare (s : SystemState) (net : Net) (old_b new_b : Balances)
    (now : Int) : SystemState × Except String Unit :=
  let tid := s.co.transaction_counter + 1
  let tx0 : Transaction :=
    { responses := [], old_balances := old_b, new_balances := new_b,
      timestamp := now }
  let co₁ : Coordinator :=
    { s.co with
        transaction_counter := tid,
        transactions := dictSet s.co.transactions tid tx0 }
  let co₂ : Coordinator :=
    { co₁ with
        clog := co₁.clog ++
          [{ state := "prepare", account_id := "A",
             account_balance := new_b.A, error := none }] }
  let ra := prepOne net.prepA s.pa new_b.A tid now
  let co₃ := setResponse co₂ tid "A" ra.2
  let co₄ : Coordinator :=
    { co₃ with
        clog := co₃.clog ++
          [{ state := "prepare", account_id := "B",
             account_balance := new_b.B, error := none }] }
  let rb := prepOne net.prepB s.pb new_b.B tid now
  let co₅ := setResponse co₄ tid "B" rb.2
  process_prepare_responses { co := co₅, pa := ra.1, pb := rb.1 } net tid

/-- The read `rpc_call(server, "get_balance", params={})["result"]`
(lines 67-68).  A delivered call returns the envelope `{"result":
balance, "error": null}`, whose `"result"` projection is the balance; a
timeout makes `rpc_call` return `None` so the projection raises
`TypeError`; a connection failure raises `RuntimeError`. -/
def getBalanceRPC (outc : NetOutcome) (p : ParticipantServer) :
    Except String Int :=
  match outc with
  | .ok => .ok p.balance
  | .timeout => .error "\x27NoneType\x27 object is not subscriptable"
  | .connFail => .error "Failed RPC call"

/-- `CoordinatorServer.transfer(account_id_from, account_id_to, amount)`
(lines 54-92).  Reads both balances, computes the debit/credit, runs
`propose_prepare`, then re-reads the transaction's recorded votes and
returns the outcome string.  Any exception reaching the `try` is rendered
as `"Transfer failed: {e}"` (nothing in the body raises `TimeoutError`, so
that narrower branch is unreachable).  The state mutations performed
before an exception persist. -/
def transfer (s : SystemState) (net : Net)
    (account_id_from account_id_to : String) (amount : Int) (now : Int) :
    SystemState × String :=
  match getBalanceRPC net.getBalA s.pa with
  | .error e => (s, "Transfer failed: " ++ e)
  | .ok balance_A =>
  match getBalanceRPC net.getBalB s.pb with
  | .error e => (s, "Transfer failed: " ++ e)
  | .ok balance_B =>
  let nb := transfer_new_balances account_id_from balance_A balance_B amount
  let new_b : Balances := { A := nb.1, B := nb.2 }
  let old_b : Balances := { A := balance_A, B := balance_B }
  let r := propose_prepare s net old_b new_b now
  match r.2 with
  | .error e => (r.1, "Transfer failed: " ++ e)
  | .ok _ =>
      match r.1.co.transactions.lookup r.1.co.transaction_counter with
      | none =>
          -- `self.transactions[self.transaction_counter]` raises
          -- `KeyError: <tid>` when the decision phase already deleted the
          -- record; `f"{e}"` renders an integer key without quotes.
          (r.1, "Transfer failed: " ++ toString r.1.co.transaction_counter)
      | some tx =>
          match readPrepVotesTransfer (tx.responses.map Prod.snd) with
          | .error e => (r.1, "Transfer failed: " ++ e)
          | .ok true =>
              (r.1, "Transferred " ++ toString amount ++ " from " ++
                account_id_from ++ " to " ++ account_id_to ++
                ". New Balances: A: " ++ toString new_b.A ++ ", B: " ++
                toString new_b.B)
          | .ok false => (r.1, "Failed to transfer. Transaction aborted.")

/-- The timeout threshold `self.timeout = 3` set in
`base_server.py` line 39. -/
def timeoutThreshold : Int := 3

/-- The scan of `CoordinatorServer.monitor_timeout` (lines 37-46) over
`list(self.transactions.items())` in insertion order: transactions with
recorded responses are skipped; for a response-less transaction past the
threshold the body runs `self.handle_abort(transaction_id)` — but
`CoordinatorServer` (including `BaseServer`) defines no `handle_abort`
attribute, so attribute lookup raises `AttributeError` and the sweep dies
there, having mutated nothing. -/
def scanTimeout (now : Int) : List (Nat × Transaction) → Except String Unit
  | [] => .ok ()
  | (_, tx) :: rest =>
      if !tx.responses.isEmpty then scanTimeout now rest
      else if now - tx.timestamp > timeoutThreshold then
        .error
          "AttributeError: \x27CoordinatorServer\x27 object has no attribute \x27handle_abort\x27"
      else scanTimeout now rest

/-- `CoordinatorServer.monitor_timeout()` as one sweep at wall-clock time
`now`: the coordinator state it leaves behind and the exception (if any)
escaping into the scheduler. -/
def monitor_timeout (co : Coordinator) (now : Int) :
    Coordinator × Except String Unit :=
  (co, scanTimeout now co.transactions)

/-! Concrete states for the scenario claims. -/

/-- Participant owning account A with initial balance 500
(the spec's transfer scenario). -/
def pA0 : ParticipantServer :=
  { account_id := "A", balance := 500, transactions := [], log := [] }

/-- Participant owning account B with initial balance 300. -/
def pB0 : ParticipantServer :=
  { account_id := "B", balance := 300, transactions := [], log := [] }

/-- Freshly started cluster: coordinator with empty transaction table and
log, participants A=500 and B=300. -/
def sys0 : SystemState :=
  { co := { transaction_counter := 0, transactions := [], clog := [] },
    pa := pA0, pb := pB0 }

/-- Fully healthy network: every RPC round-trip succeeds. -/
def netOK : Net :=
  { getBalA := .ok, getBalB := .ok, prepA := .ok, prepB := .ok,
    commitA := .ok, commitB := .ok, abortA := .ok, abortB := .ok }

/-- Healthy network except that the `handle_prepare` call to participant A
times out. -/
def netATimeout : Net := { netOK with prepA := .timeout }

/-- A transaction that never received any participant response. -/
def staleTx : Transaction :=
  { responses := [], old_balances := { A := 500, B := 300 },
    new_balances := { A := 400, B := 400 }, timestamp := 0 }

/-- Coordinator holding only `staleTx`, recorded at time 0. -/
def coStale : Coordinator :=
  { transaction_counter := 1, transactions := [(1, staleTx)], clog := [] }

/-- A coordinator log for the recovery scenario: the most recent `commit`
record for account A carries balance 777. -/
def recLogsW : List LogRecord :=
  [{ state := "commit", account_id := "A", account_balance := 250,
     error := none },
   { state := "prepare", account_id := "A", account_balance := 999,
     error := none },
   { state := "commit", account_id := "B", account_balance := 5,
     error := none },
   { state := "commit", account_id := "A", account_balance := 777,
     error := none }]

/-- Participant with one pending vote, for the commit-handler witness. -/
def pC6 : ParticipantServer :=
  { account_id := "A", balance := 500,
    transactions := [(5, { new_balance := 400, timestamp := 2 })],
    log := [] }

/-- Participants A and B after both voted yes on transaction 1 of the
transfer scenario (pending balance 400 each). -/
def pC7a : ParticipantServer :=
  { account_id := "A", balance := 500,
    transactions := [(1, { new_balance := 400, timestamp := 0 })],
    log := [] }

/-- See `pC7a`. -/
def pC7b : ParticipantServer :=
  { account_id := "B", balance := 300,
    transactions := [(1, { new_balance := 400, timestamp := 0 })],
    log := [] }

/-- Participant with a nonnegative pending vote, for the
no-negative-commit witness. -/
def pC8 : ParticipantServer :=
  { account_id := "B", balance := 300,
    transactions := [(3, { new_balance := 200, timestamp := 1 })],
    log := [] }

/-- Participant with two pending votes, for the abort witness. -/
def pC10 : ParticipantServer :=
  { account_id := "A", balance := 500,
    transactions := [(5, { new_balance := 400, timestamp := 0 }),
                     (6, { new_balance := 250, timestamp := 0 })],
    log := [] }

/-! Helper lemmas. -/

/-- Membership after a Python dict assignment: every entry of
`dictSet l k v` is an old entry of `l` or the new binding `(k, v)`. -/
theorem mem_dictSet {α β : Type} [BEq α] [LawfulBEq α]
    {l : List (α × β)} {k : α} {v : β} {kv : α × β}
    (h : kv ∈ dictSet l k v) : kv ∈ l ∨ kv = (k, v) := by
  unfold dictSet at h
  split at h
  · rcases List.mem_map.1 h with ⟨a, ha, hEq⟩
    by_cases hk : (a.1 == k) = true
    · right
      rw [if_pos hk] at hEq
      exact hEq.symm
    · left
      rw [if_neg hk] at hEq
      exact hEq ▸ ha
  · rcases List.mem_append.1 h with h1 | h1
    · exact Or.inl h1
    · exact Or.inr (List.mem_singleton.1 h1)

/-- A successful association-list lookup exhibits a member. -/
theorem mem_of_lookup {α β : Type} [BEq α] [LawfulBEq α] :
    ∀ {l : List (α × β)} {k : α} {v : β},
      l.lookup k = some v → (k, v) ∈ l := by
  intro l
  induction l with
  | nil => intro k v h; simp [List.lookup] at h
  | cons a t ih =>
    intro k v h
    rw [List.lookup] at h
    by_cases hk : (k == a.1) = true
    · rw [hk] at h
      have hka : k = a.1 := eq_of_beq hk
      have hv : a.2 = v := by simpa using h
      have hkv : (k, v) = a := by cases a; simp_all
      rw [hkv]
      exact List.mem_cons_self _ _
    · have hkf : (k == a.1) = false := by simpa using hk
      rw [hkf] at h
      exact List.mem_cons_of_mem _ (ih h)

/-- The replay loop never changes the participant's account id. -/
theorem foldl_applyCommit_account_id (l : List LogRecord)
    (p : ParticipantServer) :
    (l.foldl applyCommit p).account_id = p.account_id := by
  induction l generalizing p with
  | nil => rfl
  | cons a t ih => exact ih (applyCommit p a)

/-- The final balance of a nonempty replay does not depend on the state it
started from. -/
theorem foldl_applyCommit_balance_indep :
    ∀ (l : List LogRecord), l ≠ [] → ∀ (p q : ParticipantServer),
      (l.foldl applyCommit p).balance = (l.foldl applyCommit q).balance := by
  intro l
  induction l with
  | nil => intro h; exact absurd rfl h
  | cons a t ih =>
    intro _ p q
    cases t with
    | nil => rfl
    | cons b t' => exact ih (by simp) (applyCommit p a) (applyCommit q a)

/-! Claim theorems. -/

/-- Claim C1.  The claim says a transfer in which both participants voted
yes returns a success message with the two new balances (A=400, B=400 in
the scenario).  Evaluating the code at exactly that scenario shows
otherwise: with A=500, B=300 and a fully healthy network, both
participants do vote yes (both recorded responses are yes-vote
envelopes), yet the vote scan raises `KeyError: 'canPrepare'` — the
stored RPC envelope nests the handler's reply one level deeper than
`response["result"]["canPrepare"]` expects — so `transfer` returns
"Transfer failed: 'canPrepare'" and neither ledger changes. -/
theorem c1_transfer_envelope_bug :
    (transfer sys0 netOK "A" "B" 100 0).2 =
      "Transfer failed: \x27canPrepare\x27" ∧
    (transfer sys0 netOK "A" "B" 100 0).1.pa.balance = 500 ∧
    (transfer sys0 netOK "A" "B" 100 0).1.pb.balance = 300 ∧
    ((transfer sys0 netOK "A" "B" 100 0).1.co.transactions.lookup 1).map
        (fun tx => tx.responses) =
      some [("A", .wrapped { canPrepare := true, error := none }),
            ("B", .wrapped { canPrepare := true, error := none })] :=
  ⟨rfl, rfl, rfl, rfl⟩

/-- Claim C2.  The claim says the next `monitor_timeout` sweep force-aborts
a response-less transaction past the threshold via `propose_abort` and
removes it from the table.  The code instead calls
`self.handle_abort(transaction_id)`, an attribute `CoordinatorServer` does
not have: the sweep dies with `AttributeError` and the stale transaction
(here: age 10 > 3, zero responses) stays in the table. -/
theorem c2_monitor_timeout_attribute_error :
    (monitor_timeout coStale 10).1.transactions.lookup 1 = some staleTx ∧
    (monitor_timeout coStale 10).2 =
      .error
        "AttributeError: \x27CoordinatorServer\x27 object has no attribute \x27handle_abort\x27" ∧
    staleTx.responses = [] ∧
    10 - staleTx.timestamp > timeoutThreshold :=
  ⟨rfl, rfl, rfl, by decide⟩

/-- Claim C3.  The claim says an RPC timeout during prepare is recorded as
a synthetic `canPrepare = false` vote.  In the code `rpc_call` catches the
timeout itself and returns `None`, so the coordinator's
`except TimeoutError` branch (the one that would store the synthetic vote)
is unreachable and Python `None` is stored instead: with the prepare call
to A timing out, A's recorded response is `pyNone`, the later vote scan
raises `TypeError`, and the transfer fails with neither ledger changed.
The connection-failure half of the claim does hold: `prepOne` on a failed
connection stores the synthetic false vote. -/
theorem c3_prepare_timeout_records_none :
    ((transfer sys0 netATimeout "A" "B" 100 0).1.co.transactions.lookup
        1).map (fun tx => tx.responses.lookup "A") =
      some (some .pyNone) ∧
    (transfer sys0 netATimeout "A" "B" 100 0).2 =
      "Transfer failed: argument of type \x27NoneType\x27 is not iterable" ∧
    (transfer sys0 netATimeout "A" "B" 100 0).1.pa.balance = 500 ∧
    (transfer sys0 netATimeout "A" "B" 100 0).1.pb.balance = 300 ∧
    (prepOne .connFail pA0 400 1 0).2 =
      .syntheticFalse "Failed RPC call" :=
  ⟨rfl, rfl, rfl, rfl, rfl⟩

/-- Claim C4.  The claim says `recover()` replays the coordinator's commit
records and converges the ledger to the most recent one (777 in
`recLogsW`).  The code binds the raw RPC envelope to `logs` without
projecting out `"result"`, so the comprehension iterates the envelope's
keys and raises `TypeError`; the `except` swallows it and recover returns
with the participant completely unchanged (balance still 500), while the
replay loop it was meant to run (`replay_commit_logs`) would indeed have
produced 777. -/
theorem c4_recover_envelope_bug :
    recover pA0 recLogsW = pA0 ∧
    (recover pA0 recLogsW).balance = 500 ∧
    (replay_commit_logs pA0 recLogsW).balance = 777 ∧
    (relevantLogs "A" recLogsW).getLast? =
      some { state := "commit", account_id := "A", account_balance := 777,
             error := none } :=
  ⟨rfl, rfl, rfl, rfl⟩

/-- Claim C5, counterexample.  The claim says
`handle_prepare(new_balance=-50, transaction_id=7)` appends an
abort-reason log entry with the pre-existing balance.  At the concrete
participant `pA0` (balance 500, empty log) the call appends nothing at
all: there is no record the rejection could have added. -/
theorem c5_counterexample :
    (handle_prepare pA0 (-50) 7 0).2.canPrepare = false ∧
    ¬ ∃ e : LogRecord,
        (handle_prepare pA0 (-50) 7 0).1.log = pA0.log ++ [e] := by
  refine ⟨rfl, ?_⟩
  rintro ⟨e, h⟩
  rw [show (handle_prepare pA0 (-50) 7 0).1.log = [] from rfl,
      show pA0.log = [] from rfl] at h
  simp at h

/-- Claim C5 (amended): for every `handle_prepare` call with a negative
proposed balance the participant returns `canPrepare = false` with error
"Insufficient funds", leaves the balance unchanged, records no
PendingVote, and appends **no** log entry; the abort-reason log record at
the pre-existing balance is written only by the separate `handle_abort`
call the coordinator issues afterwards. -/
theorem c5_reject_negative (p : ParticipantServer) (nb : Int) (tid : Nat)
    (now : Int) (h : nb < 0) :
    handle_prepare p nb tid now =
      (p, { canPrepare := false, error := some "Insufficient funds" }) ∧
    (handle_abort (handle_prepare p nb tid now).1 (some tid)).log =
      p.log ++
        [{ state := "abort", account_id := p.account_id,
           account_balance := p.balance,
           error := some "Transaction aborted" }] := by
  have h1 : handle_prepare p nb tid now =
      (p, { canPrepare := false, error := some "Insufficient funds" }) := by
    unfold handle_prepare
    rw [if_pos h]
  refine ⟨h1, ?_⟩
  rw [h1]
  unfold handle_abort
  split <;> rfl

/-- Witness for C5: the amended statement at `pA0`, balance -50,
transaction 7. -/
theorem c5_reject_negative_witness :
    handle_prepare pA0 (-50) 7 0 =
      (pA0, { canPrepare := false, error := some "Insufficient funds" }) :=
  (c5_reject_negative pA0 (-50) 7 0 (by decide)).1

/-- Claim C6: `handle_commit` on an unknown id refuses with
`canCommit = false` and leaves the participant (ledger, pending table,
log) untouched; on a pending id it applies the stored balance to the
ledger, appends `commit` log records carrying that balance (the code in
fact appends two — one in `handle_commit` itself and one inside
`set_balance`), deletes the pending entry and acknowledges
`canCommit = true`. -/
theorem c6_handle_commit_spec (p : ParticipantServer) (tid : Nat) :
    (p.transactions.lookup tid = none →
      handle_commit p tid =
        (p, { canCommit := false,
              error := some "Transaction not prepared" })) ∧
    (∀ v : PendingVote, p.transactions.lookup tid = some v →
      (handle_commit p tid).2 = { canCommit := true, error := none } ∧
      (handle_commit p tid).1.balance = v.new_balance ∧
      (handle_commit p tid).1.transactions = dictDel p.transactions tid ∧
      (handle_commit p tid).1.log = p.log ++
        [{ state := "commit", account_id := p.account_id,
           account_balance := v.new_balance, error := none },
         { state := "commit", account_id := p.account_id,
           account_balance := v.new_balance, error := none }]) := by
  constructor
  · intro h
    unfold handle_commit
    rw [h]
  · intro v h
    refine ⟨?_, ?_, ?_, ?_⟩
    · unfold handle_commit; rw [h]
    · unfold handle_commit; rw [h]; rfl
    · unfold handle_commit; rw [h]; rfl
    · unfold handle_commit
      rw [h]
      simp [set_balance]

/-- Witness for C6: committing pending transaction 5 on `pC6` applies the
stored balance 400 and acknowledges yes. -/
theorem c6_handle_commit_witness :
    (handle_commit pC6 5).2 = { canCommit := true, error := none } ∧
    (handle_commit pC6 5).1.balance = 400 := by
  have h := (c6_handle_commit_spec pC6 5).2
    { new_balance := 400, timestamp := 2 } rfl
  exact ⟨h.1, h.2.1⟩

/-- Claim C7: the balances `transfer` computes debit and credit the same
amount, so when both participants commit them the total is conserved:
if A's and B's pending votes for `tid` hold exactly the computed
`new_balance_A` and `new_balance_B`, both commits succeed and the final
ledgers sum to the pre-transfer `balance_A + balance_B`. -/
theorem c7_conservation (account_id_from : String)
    (balance_A balance_B amount : Int) (tid : Nat)
    (pa pb : ParticipantServer) (ta tb : Int)
    (ha : pa.transactions.lookup tid = some
      { new_balance :=
          (transfer_new_balances account_id_from balance_A balance_B
            amount).1,
        timestamp := ta })
    (hb : pb.transactions.lookup tid = some
      { new_balance :=
          (transfer_new_balances account_id_from balance_A balance_B
            amount).2,
        timestamp := tb }) :
    (handle_commit pa tid).2.canCommit = true ∧
    (handle_commit pb tid).2.canCommit = true ∧
    (handle_commit pa tid).1.balance + (handle_commit pb tid).1.balance =
      balance_A + balance_B := by
  have hA : (handle_commit pa tid).1.balance =
      (transfer_new_balances account_id_from balance_A balance_B
        amount).1 := by
    unfold handle_commit; rw [ha]; rfl
  have hB : (handle_commit pb tid).1.balance =
      (transfer_new_balances account_id_from balance_A balance_B
        amount).2 := by
    unfold handle_commit; rw [hb]; rfl
  refine ⟨?_, ?_, ?_⟩
  · unfold handle_commit; rw [ha]
  · unfold handle_commit; rw [hb]
  · rw [hA, hB]
    unfold transfer_new_balances
    split <;> ring

/-- Witness for C7: the scenario transfer (A=500, B=300, amount 100)
prepared on `pC7a`/`pC7b`; committing both conserves the total 800. -/
theorem c7_conservation_witness :
    (handle_commit pC7a 1).1.balance + (handle_commit pC7b 1).1.balance =
      800 := by
  have h := c7_conservation "A" 500 300 100 1 pC7a pC7b 0 0 rfl rfl
  exact h.2.2.trans (by norm_num)

/-- Claim C8: `handle_prepare` preserves nonnegativity of every stored
pending vote (a negative proposal is refused, a nonnegative one stored),
and `handle_commit` only ever applies a balance from the pending table, so
under that invariant every accepted commit leaves a nonnegative ledger
balance. -/
theorem c8_no_negative_commit (p : ParticipantServer) :
    (∀ (nb : Int) (tid : Nat) (now : Int),
      (∀ kv ∈ p.transactions, 0 ≤ kv.2.new_balance) →
      ∀ kv ∈ (handle_prepare p nb tid now).1.transactions,
        0 ≤ kv.2.new_balance) ∧
    (∀ tid : Nat,
      (∀ kv ∈ p.transactions, 0 ≤ kv.2.new_balance) →
      (handle_commit p tid).2.canCommit = true →
      0 ≤ (handle_commit p tid).1.balance) := by
  constructor
  · intro nb tid now hp kv hmem
    by_cases hneg : nb < 0
    · rw [show (handle_prepare p nb tid now).1 = p by
          unfold handle_prepare; rw [if_pos hneg]] at hmem
      exact hp kv hmem
    · rw [show (handle_prepare p nb tid now).1.transactions =
            dictSet p.transactions tid
              { new_balance := nb, timestamp := now } by
          unfold handle_prepare; rw [if_neg hneg]] at hmem
      rcases mem_dictSet hmem with hm | hm
      · exact hp kv hm
      · rw [hm]
        simpa using Int.not_lt.mp hneg
  · intro tid hp hcc
    cases hv : p.transactions.lookup tid with
    | none =>
      rw [show (handle_commit p tid).2.canCommit = false by
        unfold handle_commit; rw [hv]] at hcc
      cases hcc
    | some v =>
      rw [show (handle_commit p tid).1.balance = v.new_balance by
        unfold handle_commit; rw [hv]; rfl]
      exact hp (tid, v) (mem_of_lookup hv)

/-- Witness for C8: committing the pending vote of `pC8` (stored balance
200) yields a nonnegative ledger. -/
theorem c8_no_negative_commit_witness :
    0 ≤ (handle_commit pC8 3).1.balance :=
  (c8_no_negative_commit pC8).2 3 (by decide) rfl

/-- Claim C9: recovery is idempotent.  For the shipped `recover` this is
immediate (it never changes the participant at all — see C4); for the
replay it is meant to perform, `replay_commit_logs`, running the same
commit-log replay twice yields the same final ledger balance as running it
once. -/
theorem c9_recover_idempotent (p : ParticipantServer)
    (L : List LogRecord) :
    recover (recover p L) L = recover p L ∧
    (replay_commit_logs (replay_commit_logs p L) L).balance =
      (replay_commit_logs p L).balance := by
  constructor
  · rfl
  · unfold replay_commit_logs
    rw [foldl_applyCommit_account_id]
    cases hR : relevantLogs p.account_id L with
    | nil => rfl
    | cons a t =>
      exact foldl_applyCommit_balance_indep (a :: t) (by simp) _ _

/-- Claim C10: because `handle_abort` tests its id with Python truthiness,
`transaction_id = 0` is treated exactly like an omitted id and clears the
whole pending table, while any nonzero id removes only that entry and
leaves the ledger balance untouched. -/
theorem c10_handle_abort_zero (p : ParticipantServer) :
    (handle_abort p (some 0)).transactions = [] ∧
    handle_abort p (some 0) = handle_abort p none ∧
    (∀ tid : Nat, tid ≠ 0 →
      (handle_abort p (some tid)).transactions =
        dictDel p.transactions tid ∧
      (handle_abort p (some tid)).balance = p.balance) := by
  refine ⟨rfl, rfl, ?_⟩
  intro tid h
  have hb : pyTruthy (some tid) = true := by
    simp [pyTruthy, h]
  constructor
  · simp [handle_abort, hb]
  · unfold handle_abort
    split <;> rfl

/-- Witness for C10: aborting transaction 5 on `pC10` removes only that
pending entry and keeps the balance at 500. -/
theorem c10_handle_abort_zero_witness :
    (handle_abort pC10 (some 5)).transactions =
      [(6, { new_balance := 250, timestamp := 0 })] ∧
    (handle_abort pC10 (some 5)).balance = 500 := by
  have h := (c10_handle_abort_zero pC10).2.2 5 (by decide)
  exact ⟨h.1.trans rfl, h.2⟩

end TwoPC
